import Mathlib

/-!
Verification of the mqtt-lamarzocco cloud API client.

Shallow embedding of the Go sources in app/lamarzocco (commands.go,
client.go, types.go).  Machine bytes are modelled as natural numbers
below 256, float64 dose weights as rationals, wall-clock instants as
integers (seconds; milliseconds where noted), and the network as an
explicit environment of scripted call outcomes.  External library
primitives (SHA-256, base64) that the code merely applies on top of its
own computation are taken as function parameters.
-/

namespace LaMarzocco

/-! ### CryptoIdentity: GenerateRequestProof (commands.go) -/

/-- One iteration of the proof fold, translated from the loop body of
GenerateRequestProof: idx and shiftIdx selection, shift amount from
work[shiftIdx] & 7, XOR with work[idx], rotate left within 8 bits, store
back. -/
def proofStep (work : List Nat) (byteVal : Nat) : List Nat :=
  let idx := byteVal % 32
  let shiftIdx := (idx + 1) % 32
  let shiftAmount := (work.getD shiftIdx 0) &&& 7
  let xorResult := byteVal ^^^ work.getD idx 0
  let rotated := ((xorResult <<< shiftAmount) ||| (xorResult >>> (8 - shiftAmount))) &&& 0xFF
  work.set idx rotated

/-- GenerateRequestProof from commands.go.  The SHA-256 hash and the
base64 rendering applied to the final work array are external library
functions, passed in as parameters; the guard on the secret length and
the byte fold are the code's own logic. -/
def GenerateRequestProof (sha256 : List Nat → List Nat) (b64 : List Nat → String)
    (baseBytes : List Nat) (secret : List Nat) : String :=
  if secret.length ≠ 32 then ""
  else b64 (sha256 (baseBytes.foldl proofStep secret))

/-- Rotation of x left by s bits within 8 bits, written arithmetically as
the spec describes it; for s = 0 it degenerates to the identity. -/
def rotl8 (x s : Nat) : Nat := (x * 2 ^ s) % 256 + x / 2 ^ (8 - s)

/-- One step of the fold exactly as the spec sentence words it, with the
rotation expressed via rotl8. -/
def specStep (work : List Nat) (b : Nat) : List Nat :=
  let idx := b % 32
  let shiftIdx := (idx + 1) % 32
  let shiftAmount := (work.getD shiftIdx 0) &&& 7
  let x := b ^^^ work.getD idx 0
  work.set idx (rotl8 x shiftAmount)

/-- The sequential, order-dependent fold over the bytes of the base
string described by the spec. -/
def specProofWork (baseBytes secret : List Nat) : List Nat :=
  baseBytes.foldl specStep secret

/-! ### DER signature encoding (commands.go) -/

/-- Minimal big-endian byte representation of a natural number, as
big.Int Bytes() produces it: empty for zero, no leading zero byte
otherwise. -/
def natToBytes : Nat → List Nat
  | 0 => []
  | n + 1 => natToBytes ((n + 1) / 256) ++ [(n + 1) % 256]
termination_by n => n
decreasing_by exact Nat.div_lt_self (Nat.succ_pos n) (by norm_num)

/-- Big-endian interpretation of a byte list as a non-negative integer. -/
def bytesToNat (bs : List Nat) : Nat := bs.foldl (fun acc b => 256 * acc + b) 0

/-- Leading-zero padding from encodeDERSignature: a single zero byte is
prepended when the byte list is non-empty and its first byte has the
high bit set. -/
def padPositive (bs : List Nat) : List Nat :=
  match bs with
  | [] => []
  | b :: rest => if b &&& 0x80 ≠ 0 then 0 :: b :: rest else b :: rest

/-- encodeDERSignature from commands.go: SEQUENCE of two INTEGERs, each
length prefix a single byte (byte(len) in Go, hence mod 256). -/
def encodeDERSignature (r s : Nat) : List Nat :=
  let rBytes := padPositive (natToBytes r)
  let sBytes := padPositive (natToBytes s)
  let rPart := 0x02 :: (rBytes.length % 256) :: rBytes
  let sPart := 0x02 :: (sBytes.length % 256) :: sBytes
  let content := rPart ++ sPart
  0x30 :: (content.length % 256) :: content

/-- Modelled from the spec: one DER INTEGER at the head of a byte
stream, as a standard ASN.1 DER decoder reads it — tag 0x02, a
short-form length byte, then that many big-endian content bytes giving
the non-negative integer value and the remaining stream.  The decoder is
not part of the repository; it is the standard-decoder side of the
round-trip property. -/
def readDERInt (bs : List Nat) : Option (Nat × List Nat) :=
  match bs with
  | 0x02 :: len :: rest =>
    if len ≤ rest.length then some (bytesToNat (rest.take len), rest.drop len) else none
  | _ => none

/-- Modelled from the spec: a standard ASN.1 DER decoder for
SEQUENCE { INTEGER r, INTEGER s } — tag 0x30, a short-form length byte
that must cover exactly the rest of the input, then the two INTEGERs
with nothing left over. -/
def decodeDERSignature (bs : List Nat) : Option (Nat × Nat) :=
  match bs with
  | 0x30 :: len :: content =>
    if content.length = len then
      match readDERInt content with
      | some (r, rest1) =>
        match readDERInt rest1 with
        | some (s, rest2) => if rest2 = [] then some (r, s) else none
        | none => none
      | none => none
    else none
  | _ => none

/-! ### Dose modes (types.go) -/

def DoseModeDose1 : String := "Dose1"
def DoseModeDose2 : String := "Dose2"
def DoseModeContinuous : String := "Continuous"

/-- ParseDoseMode from types.go: the Go switch over the raw string. -/
def ParseDoseMode (s : String) : String :=
  if s = "Dose1" ∨ s = "dose1" then DoseModeDose1
  else if s = "Dose2" ∨ s = "dose2" then DoseModeDose2
  else if s = "Continuous" ∨ s = "continuous" ∨ s = "Off" ∨ s = "off" then DoseModeContinuous
  else DoseModeContinuous

/-! ### Client data model (client.go, types.go) -/

/-- Truncation of a rational toward zero, the semantics of Go's
float64-to-int conversion. -/
def truncInt (q : ℚ) : Int := if 0 ≤ q then ⌊q⌋ else -⌊-q⌋

structure AuthResponse where
  accessToken : String
  refreshToken : String
deriving DecidableEq, Repr

structure TokenInfo where
  accessToken : String
  refreshToken : String
  expiresAt : Int
deriving DecidableEq, Repr

/-- InstallationKey: only the identity matters for the client state
machine; the key material is exercised by the pure crypto functions
above. -/
structure InstallationKey where
  installationID : String
deriving DecidableEq, Repr

structure DoseInfo where
  weight : ℚ
deriving DecidableEq, Repr

structure BoilerInfo where
  ready : Bool
  remainingSeconds : Int
deriving DecidableEq, Repr

structure ScaleInfo where
  connected : Bool
  batteryLevel : Int
deriving DecidableEq, Repr

/-- The mutable fields of Client (client.go). -/
structure ClientState where
  installKey : Option InstallationKey
  token : Option TokenInfo
  serial : String
  model : String
  currentMode : String
  dose1 : Option DoseInfo
  dose2 : Option DoseInfo
  machineOn : Bool
  boiler : Option BoilerInfo
  scale : Option ScaleInfo
deriving DecidableEq, Repr

structure MachineStatus where
  mode : String
  connected : Bool
  serial : String
  model : String
  dose1 : Option DoseInfo
  dose2 : Option DoseInfo
  machineOn : Bool
  boiler : Option BoilerInfo
  scale : Option ScaleInfo
deriving DecidableEq, Repr

/-- Structured error cases, mirroring the error returns of client.go. -/
inductive CErr where
  | keyGen
  | headers
  | request
  | transport
  | decode
  | initStatus (status : Nat)
  | authStatus (status : Nat)
  | reauth (e : CErr)
  | httpStatus (status : Nat)
deriving DecidableEq, Repr

/-- Outcome of one HTTP exchange against an auth endpoint: transport
failure, or a response with a status code and whether the body decodes
as an AuthResponse (and if so its value). -/
inductive CallOutcome where
  | transportFail
  | resp (status : Nat) (decodeOk : Bool) (body : AuthResponse)
deriving DecidableEq, Repr

/-- Outcome of one HTTP exchange of a generic authenticated request. -/
inductive ApiResult where
  | transportFail
  | resp (status : Nat)
deriving DecidableEq, Repr

/-- Network calls a client operation can issue, for counting. -/
inductive NetCall where
  | initCall
  | signinCall
  | refreshCall
  | apiCall
deriving DecidableEq, Repr

/-- The deterministic environment a client operation runs against:
current time (seconds), key-generation outcome, and the outcome of each
auth endpoint exchange.  reqOk flags model payload marshalling plus
request construction; headersOk models GenerateExtraHeaders. -/
structure Env where
  now : Int
  genKeyOk : Bool
  newKey : InstallationKey
  initReqOk : Bool
  initResult : CallOutcome
  signinReqOk : Bool
  signinResult : CallOutcome
  refreshReqOk : Bool
  refreshResult : CallOutcome
  headersOk : Bool
deriving DecidableEq, Repr

deriving instance DecidableEq for Except

structure OpResult where
  res : Except CErr Unit
  state : ClientState
  calls : List NetCall
deriving DecidableEq, Repr

/-- registerClient (client.go): generate an installation key, POST the
public key to /auth/init, store the key on 200/201. -/
def registerClient (c : ClientState) (env : Env) : OpResult :=
  if env.genKeyOk = false then ⟨.error .keyGen, c, []⟩
  else if env.initReqOk = false then ⟨.error .request, c, []⟩
  else
    match env.initResult with
    | .transportFail => ⟨.error .transport, c, [.initCall]⟩
    | .resp status _ _ =>
      if status ≠ 200 ∧ status ≠ 201 then ⟨.error (.initStatus status), c, [.initCall]⟩
      else ⟨.ok (), { c with installKey := some env.newKey }, [.initCall]⟩

/-- The sign-in part of authenticate (client.go): marshal credentials,
build the request, attach the signature headers, POST /auth/signin,
store the token with a 1-hour expiry on success. -/
def authSignin (c : ClientState) (env : Env) (pre : List NetCall) : OpResult :=
  if env.signinReqOk = false then ⟨.error .request, c, pre⟩
  else if env.headersOk = false then ⟨.error .headers, c, pre⟩
  else
    match env.signinResult with
    | .transportFail => ⟨.error .transport, c, pre ++ [.signinCall]⟩
    | .resp status decodeOk body =>
      if status ≠ 200 then ⟨.error (.authStatus status), c, pre ++ [.signinCall]⟩
      else if decodeOk = false then ⟨.error .decode, c, pre ++ [.signinCall]⟩
      else ⟨.ok (),
        { c with token := some ⟨body.accessToken, body.refreshToken, env.now + 3600⟩ },
        pre ++ [.signinCall]⟩

/-- authenticate (client.go): register first when no installation key is
present, then sign in. -/
def authenticate (c : ClientState) (env : Env) : OpResult :=
  match c.installKey with
  | none =>
    let reg := registerClient c env
    match reg.res with
    | .error e => ⟨.error e, reg.state, reg.calls⟩
    | .ok _ => authSignin reg.state env reg.calls
  | some _ => authSignin c env []

/-- refreshToken (client.go): delegate to authenticate when no refresh
token or no installation key is present; otherwise POST
/auth/refreshtoken and, on a non-200 status, fall back to authenticate
instead of failing. -/
def refreshToken (c : ClientState) (env : Env) : OpResult :=
  let rt := match c.token with
    | some t => t.refreshToken
    | none => ""
  if rt = "" then authenticate c env
  else
    match c.installKey with
    | none => authenticate c env
    | some _ =>
      if env.refreshReqOk = false then ⟨.error .request, c, []⟩
      else if env.headersOk = false then ⟨.error .headers, c, []⟩
      else
        match env.refreshResult with
        | .transportFail => ⟨.error .transport, c, [.refreshCall]⟩
        | .resp status decodeOk body =>
          if status ≠ 200 then
            let a := authenticate c env
            ⟨a.res, a.state, .refreshCall :: a.calls⟩
          else if decodeOk = false then ⟨.error .decode, c, [.refreshCall]⟩
          else ⟨.ok (),
            { c with token := some ⟨body.accessToken, body.refreshToken, env.now + 3600⟩ },
            [.refreshCall]⟩

/-- ensureValidToken (client.go): authenticate when no token is cached,
refresh when the expiry lies within the 5-minute margin of the current
time, otherwise do nothing. -/
def ensureValidToken (c : ClientState) (env : Env) : OpResult :=
  match c.token with
  | none => authenticate c env
  | some t =>
    if env.now + 300 > t.expiresAt then refreshToken c env
    else ⟨.ok (), c, []⟩

structure ReqResult where
  res : Except CErr Nat
  state : ClientState
  calls : List NetCall
  rest : List ApiResult
deriving DecidableEq, Repr

/-- doAuthenticatedRequestWithRetry (client.go): check token freshness,
issue the HTTP call (consuming the head of the scripted responses), and
on a 401 with allowRetry re-authenticate and retry exactly once with
allowRetry set to false.  Request marshalling and construction cannot
fail for the payloads the client sends, and GenerateExtraHeaders
failures are silently ignored here, as in the source.  An empty script
is surfaced as a transport failure. -/
def doAuthenticatedRequestWithRetry (c : ClientState) (env : Env)
    (script : List ApiResult) (allowRetry : Bool) : ReqResult :=
  let ev := ensureValidToken c env
  match ev.res with
  | .error e => ⟨.error e, ev.state, ev.calls, script⟩
  | .ok _ =>
    match script with
    | [] => ⟨.error .transport, ev.state, ev.calls ++ [.apiCall], []⟩
    | .transportFail :: rest => ⟨.error .transport, ev.state, ev.calls ++ [.apiCall], rest⟩
    | .resp status :: rest =>
      if status = 401 ∧ allowRetry = true then
        let a := authenticate ev.state env
        match a.res with
        | .error e => ⟨.error (.reauth e), a.state, ev.calls ++ [.apiCall] ++ a.calls, rest⟩
        | .ok _ =>
          let retry := doAuthenticatedRequestWithRetry a.state env rest false
          ⟨retry.res, retry.state, ev.calls ++ [.apiCall] ++ a.calls ++ retry.calls, retry.rest⟩
      else ⟨.ok status, ev.state, ev.calls ++ [.apiCall], rest⟩

/-- doAuthenticatedRequest (client.go): entry point with allowRetry. -/
def doAuthenticatedRequest (c : ClientState) (env : Env) (script : List ApiResult) : ReqResult :=
  doAuthenticatedRequestWithRetry c env script true

structure MutResult where
  res : Except CErr Unit
  state : ClientState
  notifyCount : Nat
deriving DecidableEq, Repr

/-- SetMode (client.go): POST the mode-change command; on a status other
than 200/202 return an error leaving the snapshot untouched; otherwise
update currentMode and notify once. -/
def SetMode (c : ClientState) (env : Env) (script : List ApiResult) (mode : String) : MutResult :=
  let r := doAuthenticatedRequest c env script
  match r.res with
  | .error e => ⟨.error e, r.state, 0⟩
  | .ok status =>
    if status ≠ 200 ∧ status ≠ 202 then ⟨.error (.httpStatus status), r.state, 0⟩
    else ⟨.ok (), { r.state with currentMode := mode }, 1⟩

/-- SetDose (client.go): read both cached dose values, round the target
to one decimal toward zero, POST both doses; on success store the
rounded dose for the targeted id and notify once. -/
def SetDose (c : ClientState) (env : Env) (script : List ApiResult)
    (doseId : String) (weight : ℚ) : MutResult :=
  let dose1Val : ℚ := match c.dose1 with
    | some d => d.weight
    | none => 0
  let dose2Val : ℚ := match c.dose2 with
    | some d => d.weight
    | none => 0
  let roundedWeight : ℚ := (truncInt (weight * 10) : ℚ) / 10
  let payloadDose1 := if doseId = "Dose1" then roundedWeight else dose1Val
  let payloadDose2 := if doseId = "Dose2" then roundedWeight else dose2Val
  let r := doAuthenticatedRequest c env script
  match r.res with
  | .error e => ⟨.error e, r.state, 0⟩
  | .ok status =>
    if status ≠ 200 ∧ status ≠ 202 then ⟨.error (.httpStatus status), r.state, 0⟩
    else
      let st := r.state
      let st :=
        if doseId = "Dose1" then { st with dose1 := some ⟨roundedWeight⟩ }
        else if doseId = "Dose2" then { st with dose2 := some ⟨roundedWeight⟩ }
        else st
      ⟨.ok (), st, 1⟩

/-- GetStatus (client.go): snapshot view; Connected is the presence of a
token. -/
def GetStatus (c : ClientState) : MachineStatus :=
  ⟨c.currentMode, c.token.isSome, c.serial, c.model, c.dose1, c.dose2,
    c.machineOn, c.boiler, c.scale⟩

/-! ### Dashboard payload parsing (client.go) -/

/-- Generic JSON value, the shape json.Unmarshal delivers into
map-of-interface values. -/
inductive JVal where
  | null
  | bool (b : Bool)
  | num (q : ℚ)
  | str (s : String)
  | arr (items : List JVal)
  | obj (fields : List (String × JVal))

/-- Field lookup in a JSON object. -/
def jlookup (fields : List (String × JVal)) (key : String) : Option JVal :=
  match fields with
  | [] => none
  | (k, v) :: rest => if k = key then some v else jlookup rest key

/-- dashboardData (client.go). -/
structure DashboardData where
  mode : String
  dose1 : Option DoseInfo
  dose2 : Option DoseInfo
  machineOn : Bool
  boiler : Option BoilerInfo
  scale : Option ScaleInfo
deriving DecidableEq, Repr

/-- CMMachineStatus widget: the status string overrides the power
state. -/
def applyMachineStatusWidget (widget : List (String × JVal)) (result : DashboardData) :
    DashboardData :=
  match jlookup widget "output" with
  | some (.obj output) =>
    match jlookup output "status" with
    | some (.str status) => { result with machineOn := status = "PoweredOn" }
    | _ => result
  | _ => result

/-- Brew-by-weight widget: mode plus the two dose weights, a weight not
above zero being skipped. -/
def applyBrewWidget (widget : List (String × JVal)) (result : DashboardData) : DashboardData :=
  match jlookup widget "output" with
  | some (.obj output) =>
    let result :=
      match jlookup output "mode" with
      | some (.str mode) => { result with mode := ParseDoseMode mode }
      | _ => result
    match jlookup output "doses" with
    | some (.obj doses) =>
      let result :=
        match jlookup doses "Dose1" with
        | some (.obj dose1Data) =>
          match jlookup dose1Data "dose" with
          | some (.num weight) =>
            if weight > 0 then { result with dose1 := some ⟨weight⟩ } else result
          | _ => result
        | _ => result
      match jlookup doses "Dose2" with
      | some (.obj dose2Data) =>
        match jlookup dose2Data "dose" with
        | some (.num weight) =>
          if weight > 0 then { result with dose2 := some ⟨weight⟩ } else result
        | _ => result
      | _ => result
    | _ => result
  | _ => result

/-- Boiler widget: readiness from the status string, remaining seconds
from the explicit countdown or from a future readyStartTime timestamp
against the current time in milliseconds. -/
def applyBoilerWidget (nowMilli : ℚ) (widget : List (String × JVal)) (result : DashboardData) :
    DashboardData :=
  match jlookup widget "output" with
  | some (.obj output) =>
    let boiler : BoilerInfo := ⟨false, 0⟩
    let boiler :=
      match jlookup output "status" with
      | some (.str status) => { boiler with ready := status = "Ready" }
      | _ => boiler
    let boiler :=
      match jlookup output "remainingSeconds" with
      | some (.num remaining) => { boiler with remainingSeconds := truncInt remaining }
      | _ => boiler
    let boiler :=
      match jlookup output "readyStartTime" with
      | some (.num remaining) =>
        if remaining > 0 ∧ remaining > nowMilli then
          { boiler with remainingSeconds := truncInt ((remaining - nowMilli) / 1000) }
        else boiler
      | _ => boiler
    { result with boiler := some boiler }
  | _ => result

/-- ThingScale widget: connectivity and battery level. -/
def applyScaleWidget (widget : List (String × JVal)) (result : DashboardData) : DashboardData :=
  match jlookup widget "output" with
  | some (.obj output) =>
    let scale : ScaleInfo := ⟨false, 0⟩
    let scale :=
      match jlookup output "connected" with
      | some (.bool connected) => { scale with connected := connected }
      | _ => scale
    let scale :=
      match jlookup output "batteryLevel" with
      | some (.num battery) => { scale with batteryLevel := truncInt battery }
      | _ => scale
    { result with scale := some scale }
  | _ => result

/-- One iteration of the widget loop in extractDataFromDashboard: a
non-object entry is skipped, otherwise the code-keyed handlers run in
source order. -/
def applyWidget (nowMilli : ℚ) (result : DashboardData) (w : JVal) : DashboardData :=
  match w with
  | .obj widget =>
    let widgetCode := match jlookup widget "code" with
      | some (.str s) => s
      | _ => ""
    let result :=
      if widgetCode = "CMMachineStatus" then applyMachineStatusWidget widget result
      else result
    let result :=
      if widgetCode = "CMBrewByWeightDoses" ∨ widgetCode = "BrewByWeightDoses" then
        applyBrewWidget widget result
      else result
    let result :=
      if widgetCode = "CMCoffeeBoiler" ∨ widgetCode = "CMBoilerStatus" then
        applyBoilerWidget nowMilli widget result
      else result
    let result :=
      if widgetCode = "ThingScale" then applyScaleWidget widget result
      else result
    result
  | _ => result

/-- extractDataFromDashboard (client.go): defaults, the top-level
connected flag, the widget loop, and the top-level mode fallback.  A
payload that is not a JSON object (undecodable input) yields the default
result. -/
def extractDataFromDashboard (body : JVal) (nowMilli : ℚ) : DashboardData :=
  let result : DashboardData := ⟨DoseModeContinuous, none, none, false, none, none⟩
  match body with
  | .obj data =>
    let result :=
      match jlookup data "connected" with
      | some (.bool true) => { result with machineOn := true }
      | _ => result
    let result :=
      match jlookup data "widgets" with
      | some (.arr widgets) => widgets.foldl (applyWidget nowMilli) result
      | _ => result
    if result.mode = DoseModeContinuous then
      match jlookup data "mode" with
      | some (.str mode) => { result with mode := ParseDoseMode mode }
      | _ => result
    else result
  | _ => result

/-- Dose-slot change test from fetchCurrentMode: fires only when the new
value is present and the old one is absent or differs in weight. -/
def doseChanged (old new : Option DoseInfo) : Bool :=
  match new, old with
  | some nd, none => true
  | some nd, some od => od.weight != nd.weight
  | none, _ => false

/-- Boiler change test from fetchCurrentMode. -/
def boilerChanged (old new : Option BoilerInfo) : Bool :=
  match new, old with
  | some nb, none => true
  | some nb, some ob => ob.ready != nb.ready || ob.remainingSeconds != nb.remainingSeconds
  | none, _ => false

/-- Scale change test from fetchCurrentMode. -/
def scaleChanged (old new : Option ScaleInfo) : Bool :=
  match new, old with
  | some ns, none => true
  | some ns, some os => os.connected != ns.connected || os.batteryLevel != ns.batteryLevel
  | none, _ => false

/-- The change predicate of fetchCurrentMode, the sequential guarded-if
chain written as a disjunction. -/
def dashboardChanged (old : ClientState) (data : DashboardData) : Bool :=
  (old.currentMode != data.mode) || (old.machineOn != data.machineOn)
    || doseChanged old.dose1 data.dose1 || doseChanged old.dose2 data.dose2
    || boilerChanged old.boiler data.boiler || scaleChanged old.scale data.scale

structure FetchResult where
  res : Except CErr Unit
  state : ClientState
  notifyCount : Nat
deriving DecidableEq, Repr

/-- fetchCurrentMode (client.go): GET the dashboard, fail on non-200,
extract the data, install it in the snapshot, and notify once when the
change predicate holds. -/
def fetchCurrentMode (c : ClientState) (env : Env) (script : List ApiResult)
    (body : JVal) (nowMilli : ℚ) : FetchResult :=
  let r := doAuthenticatedRequest c env script
  match r.res with
  | .error e => ⟨.error e, r.state, 0⟩
  | .ok status =>
    if status ≠ 200 then ⟨.error (.httpStatus status), r.state, 0⟩
    else
      let data := extractDataFromDashboard body nowMilli
      let old := r.state
      let st := { r.state with
        currentMode := data.mode, dose1 := data.dose1, dose2 := data.dose2,
        machineOn := data.machineOn, boiler := data.boiler, scale := data.scale }
      ⟨.ok (), st, if dashboardChanged old data then 1 else 0⟩

/-- Dose-slot change as the amended diff policy words it: the new value
is present and the old one is absent or carries a different weight. -/
def DoseSlotChange (old new : Option DoseInfo) : Prop :=
  ∃ nd, new = some nd ∧ (old = none ∨ ∃ od, old = some od ∧ od.weight ≠ nd.weight)

/-- Boiler change as the amended diff policy words it. -/
def BoilerChange (old new : Option BoilerInfo) : Prop :=
  ∃ nb, new = some nb ∧
    (old = none ∨ ∃ ob, old = some ob ∧
      (ob.ready ≠ nb.ready ∨ ob.remainingSeconds ≠ nb.remainingSeconds))

/-- Scale change as the amended diff policy words it. -/
def ScaleChange (old new : Option ScaleInfo) : Prop :=
  ∃ ns, new = some ns ∧
    (old = none ∨ ∃ os, old = some os ∧
      (os.connected ≠ ns.connected ∨ os.batteryLevel ≠ ns.batteryLevel))

/-- The full change predicate of the amended diff policy: mode or power
differ, or one of the optional groups present in the new data is absent
or differs field-wise in the previous snapshot. -/
def SnapshotChange (old : ClientState) (data : DashboardData) : Prop :=
  old.currentMode ≠ data.mode ∨ old.machineOn ≠ data.machineOn ∨
    DoseSlotChange old.dose1 data.dose1 ∨ DoseSlotChange old.dose2 data.dose2 ∨
    BoilerChange old.boiler data.boiler ∨ ScaleChange old.scale data.scale

/-- Equality of the device-snapshot fields of two client states (the
fields fetchCurrentMode diffs and the mutations update). -/
def snapEq (a b : ClientState) : Prop :=
  a.currentMode = b.currentMode ∧ a.dose1 = b.dose1 ∧ a.dose2 = b.dose2 ∧
    a.machineOn = b.machineOn ∧ a.boiler = b.boiler ∧ a.scale = b.scale

set_option maxRecDepth 10000 in
theorem rot_formula_eq (x s : Nat) (hx : x < 256) (hs : s < 8) :
    ((x <<< s) ||| (x >>> (8 - s))) &&& 0xFF = rotl8 x s := by
  have h : ∀ x < 256, ∀ s < 8, ((x <<< s) ||| (x >>> (8 - s))) &&& 0xFF = rotl8 x s := by
    decide
  exact h x hx s hs

theorem xor_lt_256 {x y : Nat} (hx : x < 256) (hy : y < 256) : x ^^^ y < 256 := by
  have : x ^^^ y < 2 ^ 8 := Nat.bitwise_lt (by simpa using hx) (by simpa using hy)
  simpa using this

theorem getD_lt_256 : ∀ (l : List Nat), (∀ v ∈ l, v < 256) → ∀ i, l.getD i 0 < 256
  | [], _, _ => by simp
  | b :: _, h, 0 => by simpa using h b (by simp)
  | _ :: bs, h, i + 1 => by
    simpa using getD_lt_256 bs (fun v hv => h v (by simp [hv])) i

theorem mem_proofStep_lt {work : List Nat} (h : ∀ v ∈ work, v < 256) (b : Nat) :
    ∀ v ∈ proofStep work b, v < 256 := by
  intro v hv
  unfold proofStep at hv
  rcases List.mem_or_eq_of_mem_set hv with h1 | rfl
  · exact h v h1
  · have hle : ((b ^^^ work.getD (b % 32) 0) <<< (work.getD ((b % 32 + 1) % 32) 0 &&& 7) |||
        (b ^^^ work.getD (b % 32) 0) >>> (8 - (work.getD ((b % 32 + 1) % 32) 0 &&& 7)))
          &&& 0xFF ≤ 0xFF := Nat.and_le_right
    omega

theorem proofStep_eq_specStep {work : List Nat} (hw : ∀ v ∈ work, v < 256) {b : Nat}
    (hb : b < 256) : proofStep work b = specStep work b := by
  simp only [proofStep, specStep]
  congr 1
  exact rot_formula_eq _ _ (xor_lt_256 hb (getD_lt_256 _ hw _))
    (Nat.lt_succ_of_le Nat.and_le_right)

theorem proofFold_eq_specFold : ∀ (base work : List Nat),
    (∀ v ∈ work, v < 256) → (∀ b ∈ base, b < 256) →
    base.foldl proofStep work = base.foldl specStep work
  | [], _, _, _ => rfl
  | b :: bs, work, hw, hb => by
    simp only [List.foldl_cons]
    rw [← proofStep_eq_specStep hw (hb b (by simp))]
    exact proofFold_eq_specFold bs _ (mem_proofStep_lt hw b)
      (fun x hx => hb x (by simp [hx]))

/-- C1: for every base string and every 32-byte secret (bytes below 256),
GenerateRequestProof returns base64(SHA256(work)) where work is the
sequential order-dependent fold the spec describes, with the per-byte
index selection, shift amount, XOR and 8-bit left rotation (the identity
rotation when the shift amount is 0); moreover the function is
deterministic: equal inputs yield equal output. -/
theorem generateRequestProof_spec (sha256 : List Nat → List Nat) (b64 : List Nat → String)
    (baseBytes secret : List Nat) (hlen : secret.length = 32)
    (hbase : ∀ b ∈ baseBytes, b < 256) (hsec : ∀ v ∈ secret, v < 256) :
    GenerateRequestProof sha256 b64 baseBytes secret
      = b64 (sha256 (specProofWork baseBytes secret)) ∧
    (∀ base2 secret2, base2 = baseBytes → secret2 = secret →
      GenerateRequestProof sha256 b64 base2 secret2
        = GenerateRequestProof sha256 b64 baseBytes secret) := by
  constructor
  · unfold GenerateRequestProof specProofWork
    rw [if_neg (by simp [hlen])]
    rw [proofFold_eq_specFold baseBytes secret hsec hbase]
  · intro base2 secret2 h1 h2
    rw [h1, h2]

theorem generateRequestProof_spec_witness :
    GenerateRequestProof (fun l => l) (fun l => toString l.length) [65, 66] (List.replicate 32 0)
      = (fun l : List Nat => toString l.length)
          ((fun l : List Nat => l) (specProofWork [65, 66] (List.replicate 32 0))) :=
  (generateRequestProof_spec (fun l => l) (fun l => toString l.length) [65, 66]
    (List.replicate 32 0) (by decide) (by decide) (by decide)).1

/-- C9: ParseDoseMode is total over all strings, maps Dose1/dose1 and
Dose2/dose2 to their variants, every other string (including Continuous,
continuous, Off, off, the empty string and unrecognized values) to the
Continuous variant, and never returns anything outside the three
variants. -/
theorem parseDoseMode_total (s : String) :
    (ParseDoseMode s = (if s = "Dose1" ∨ s = "dose1" then DoseModeDose1
        else if s = "Dose2" ∨ s = "dose2" then DoseModeDose2 else DoseModeContinuous)) ∧
    (ParseDoseMode s = DoseModeDose1 ∨ ParseDoseMode s = DoseModeDose2 ∨
      ParseDoseMode s = DoseModeContinuous) ∧
    ParseDoseMode "Continuous" = DoseModeContinuous ∧
    ParseDoseMode "continuous" = DoseModeContinuous ∧
    ParseDoseMode "Off" = DoseModeContinuous ∧
    ParseDoseMode "off" = DoseModeContinuous ∧
    ParseDoseMode "" = DoseModeContinuous := by
  refine ⟨?_, ?_, by decide, by decide, by decide, by decide, by decide⟩
  · unfold ParseDoseMode
    split_ifs <;> rfl
  · unfold ParseDoseMode
    split_ifs <;> simp

theorem bytesToNat_append (xs : List Nat) (b : Nat) :
    bytesToNat (xs ++ [b]) = 256 * bytesToNat xs + b := by
  simp [bytesToNat, List.foldl_append]

theorem bytesToNat_natToBytes (n : Nat) : bytesToNat (natToBytes n) = n := by
  induction n using Nat.strong_induction_on with
  | _ n ih =>
    match n with
    | 0 => simp [natToBytes, bytesToNat]
    | m + 1 =>
      rw [natToBytes, bytesToNat_append,
        ih ((m + 1) / 256) (Nat.div_lt_self (Nat.succ_pos m) (by norm_num))]
      exact Nat.div_add_mod _ _

theorem natToBytes_length_le : ∀ (k n : Nat), n < 256 ^ k → (natToBytes n).length ≤ k
  | _, 0, _ => by simp [natToBytes]
  | 0, n + 1, h => by simp at h
  | k + 1, n + 1, h => by
    rw [natToBytes]
    have hdiv : (n + 1) / 256 < 256 ^ k := by
      apply Nat.div_lt_of_lt_mul
      calc n + 1 < 256 ^ (k + 1) := h
        _ = 256 * 256 ^ k := by ring
    have := natToBytes_length_le k ((n + 1) / 256) hdiv
    simp only [List.length_append, List.length_cons, List.length_nil]
    omega

theorem bytesToNat_padPositive (bs : List Nat) : bytesToNat (padPositive bs) = bytesToNat bs := by
  match bs with
  | [] => rfl
  | b :: rest =>
    simp only [padPositive]
    split
    · simp [bytesToNat]
    · rfl

theorem padPositive_length (bs : List Nat) : (padPositive bs).length ≤ bs.length + 1 := by
  match bs with
  | [] => simp [padPositive]
  | b :: rest =>
    simp only [padPositive]
    split <;> simp

theorem encodeDER_eq (r s : Nat) :
    encodeDERSignature r s
      = 0x30 :: (((0x02 :: ((padPositive (natToBytes r)).length % 256) :: padPositive (natToBytes r))
          ++ (0x02 :: ((padPositive (natToBytes s)).length % 256) :: padPositive (natToBytes s))).length % 256)
        :: ((0x02 :: ((padPositive (natToBytes r)).length % 256) :: padPositive (natToBytes r))
          ++ (0x02 :: ((padPositive (natToBytes s)).length % 256) :: padPositive (natToBytes s))) := rfl

/-- C6: for every pair of positive integers of at most 32 bytes (as
P-256 signing produces), the DER bytes built by encodeDERSignature parse
under a standard ASN.1 DER decoder as SEQUENCE of two INTEGERs
recovering the original pair, including the case where the top byte of
either integer has its high bit set and a zero byte is prepended. -/
theorem encodeDER_decode_roundtrip (r s : Nat) (hr0 : 0 < r) (hr : r < 2 ^ 256)
    (hs0 : 0 < s) (hs : s < 2 ^ 256) :
    decodeDERSignature (encodeDERSignature r s) = some (r, s) := by
  have hpow : (256 : Nat) ^ 32 = 2 ^ 256 := by norm_num
  have hrl : (padPositive (natToBytes r)).length ≤ 33 := by
    have h1 := natToBytes_length_le 32 r (by omega)
    have h2 := padPositive_length (natToBytes r)
    omega
  have hsl : (padPositive (natToBytes s)).length ≤ 33 := by
    have h1 := natToBytes_length_le 32 s (by omega)
    have h2 := padPositive_length (natToBytes s)
    omega
  set rB := padPositive (natToBytes r) with hrB
  set sB := padPositive (natToBytes s) with hsB
  have hrm : rB.length % 256 = rB.length := Nat.mod_eq_of_lt (by omega)
  have hsm : sB.length % 256 = sB.length := Nat.mod_eq_of_lt (by omega)
  rw [encodeDER_eq, ← hrB, ← hsB]
  simp only [List.cons_append]
  rw [hrm, hsm]
  simp only [decodeDERSignature]
  rw [if_pos (by
    simp only [List.length_cons, List.length_append]
    omega)]
  simp only [readDERInt]
  rw [if_pos (by simp [List.length_append])]
  rw [List.take_left, List.drop_left]
  simp only [readDERInt]
  rw [if_pos (le_refl _)]
  rw [List.take_length, List.drop_length]
  simp only [if_pos]
  rw [hrB, hsB, bytesToNat_padPositive, bytesToNat_padPositive,
    bytesToNat_natToBytes, bytesToNat_natToBytes]

/-- C3: ensureValidToken is a no-op (success, unchanged state, no
network call) when the cached token expires more than 5 minutes after
the current time; it delegates to authenticate when no token is cached,
and to refreshToken when the expiry lies strictly within the 5-minute
margin. -/
theorem ensureValidToken_policy (c : ClientState) (env : Env) :
    (∀ t, c.token = some t → env.now + 300 < t.expiresAt →
      ensureValidToken c env = ⟨.ok (), c, []⟩) ∧
    (c.token = none → ensureValidToken c env = authenticate c env) ∧
    (∀ t, c.token = some t → t.expiresAt < env.now + 300 →
      ensureValidToken c env = refreshToken c env) := by
  refine ⟨?_, ?_, ?_⟩
  · intro t ht hfresh
    simp only [ensureValidToken, ht]
    rw [if_neg (by omega)]
  · intro ht
    simp only [ensureValidToken, ht]
  · intro t ht hexp
    simp only [ensureValidToken, ht]
    rw [if_pos (by omega)]

theorem ensureValidToken_policy_witness :
    (ensureValidToken ⟨none, some ⟨"a", "r", 1000⟩, "", "", "Continuous", none, none, false, none, none⟩
        ⟨0, true, ⟨"i"⟩, true, .resp 200 true ⟨"a", "r"⟩, true, .resp 200 true ⟨"a", "r"⟩,
          true, .resp 200 true ⟨"a", "r"⟩, true⟩
      = ⟨.ok (), ⟨none, some ⟨"a", "r", 1000⟩, "", "", "Continuous", none, none, false, none, none⟩, []⟩) ∧
    (ensureValidToken ⟨none, none, "", "", "Continuous", none, none, false, none, none⟩
        ⟨0, true, ⟨"i"⟩, true, .resp 200 true ⟨"a", "r"⟩, true, .resp 200 true ⟨"a", "r"⟩,
          true, .resp 200 true ⟨"a", "r"⟩, true⟩
      = authenticate ⟨none, none, "", "", "Continuous", none, none, false, none, none⟩
          ⟨0, true, ⟨"i"⟩, true, .resp 200 true ⟨"a", "r"⟩, true, .resp 200 true ⟨"a", "r"⟩,
            true, .resp 200 true ⟨"a", "r"⟩, true⟩) ∧
    (ensureValidToken ⟨none, some ⟨"a", "r", 100⟩, "", "", "Continuous", none, none, false, none, none⟩
        ⟨0, true, ⟨"i"⟩, true, .resp 200 true ⟨"a", "r"⟩, true, .resp 200 true ⟨"a", "r"⟩,
          true, .resp 200 true ⟨"a", "r"⟩, true⟩
      = refreshToken ⟨none, some ⟨"a", "r", 100⟩, "", "", "Continuous", none, none, false, none, none⟩
          ⟨0, true, ⟨"i"⟩, true, .resp 200 true ⟨"a", "r"⟩, true, .resp 200 true ⟨"a", "r"⟩,
            true, .resp 200 true ⟨"a", "r"⟩, true⟩) :=
  ⟨(ensureValidToken_policy _ _).1 ⟨"a", "r", 1000⟩ rfl (by norm_num),
   (ensureValidToken_policy _ _).2.1 rfl,
   (ensureValidToken_policy _ _).2.2 ⟨"a", "r", 100⟩ rfl (by norm_num)⟩

theorem encodeDER_decode_roundtrip_witness :
    decodeDERSignature (encodeDERSignature 200 127) = some (200, 127) :=
  encodeDER_decode_roundtrip 200 127 (by norm_num) (by norm_num) (by norm_num) (by norm_num)

theorem snapEq_trans {a b c : ClientState} (h1 : snapEq a b) (h2 : snapEq b c) : snapEq a c :=
  ⟨h1.1.trans h2.1, h1.2.1.trans h2.2.1, h1.2.2.1.trans h2.2.2.1,
    h1.2.2.2.1.trans h2.2.2.2.1, h1.2.2.2.2.1.trans h2.2.2.2.2.1,
    h1.2.2.2.2.2.trans h2.2.2.2.2.2⟩

theorem registerClient_token (c : ClientState) (env : Env) :
    (registerClient c env).state.token = c.token := by
  unfold registerClient
  repeat' split
  all_goals simp

theorem registerClient_snap (c : ClientState) (env : Env) :
    snapEq (registerClient c env).state c := by
  unfold snapEq registerClient
  repeat' split
  all_goals simp

theorem authSignin_snap (c : ClientState) (env : Env) (pre : List NetCall) :
    snapEq (authSignin c env pre).state c := by
  unfold snapEq authSignin
  repeat' split
  all_goals simp

theorem authenticate_snap (c : ClientState) (env : Env) :
    snapEq (authenticate c env).state c := by
  simp only [authenticate]
  cases hk : c.installKey with
  | none =>
    cases hr : (registerClient c env).res with
    | error e => exact registerClient_snap c env
    | ok u =>
      exact snapEq_trans (authSignin_snap (registerClient c env).state env _)
        (registerClient_snap c env)
  | some k => exact authSignin_snap c env []

theorem refreshToken_snap (c : ClientState) (env : Env) :
    snapEq (refreshToken c env).state c := by
  simp only [refreshToken]
  repeat' split
  all_goals first
    | exact authenticate_snap c env
    | exact ⟨rfl, rfl, rfl, rfl, rfl, rfl⟩

theorem ensureValidToken_snap (c : ClientState) (env : Env) :
    snapEq (ensureValidToken c env).state c := by
  simp only [ensureValidToken]
  repeat' split
  all_goals first
    | exact authenticate_snap c env
    | exact refreshToken_snap c env
    | exact ⟨rfl, rfl, rfl, rfl, rfl, rfl⟩

theorem doAuthReq_snap (env : Env) :
    ∀ (script : List ApiResult) (c : ClientState) (b : Bool),
      snapEq (doAuthenticatedRequestWithRetry c env script b).state c := by
  intro script
  induction script with
  | nil =>
    intro c b
    simp only [doAuthenticatedRequestWithRetry]
    cases he : (ensureValidToken c env).res <;> exact ensureValidToken_snap c env
  | cons h rest ih =>
    intro c b
    cases h with
    | transportFail =>
      simp only [doAuthenticatedRequestWithRetry]
      cases he : (ensureValidToken c env).res <;> exact ensureValidToken_snap c env
    | resp status =>
      simp only [doAuthenticatedRequestWithRetry]
      cases he : (ensureValidToken c env).res with
      | error e => exact ensureValidToken_snap c env
      | ok u =>
        by_cases hc : status = 401 ∧ b = true
        · rw [if_pos hc]
          cases ha : (authenticate (ensureValidToken c env).state env).res with
          | error e =>
            exact snapEq_trans (authenticate_snap _ env) (ensureValidToken_snap c env)
          | ok v =>
            exact snapEq_trans (ih _ false)
              (snapEq_trans (authenticate_snap _ env) (ensureValidToken_snap c env))
        · rw [if_neg hc]
          exact ensureValidToken_snap c env

theorem authSignin_token (c : ClientState) (env : Env) (pre : List NetCall)
    (h : c.token.isSome = true) : (authSignin c env pre).state.token.isSome = true := by
  unfold authSignin
  repeat' split
  all_goals simp [h]

theorem authenticate_token (c : ClientState) (env : Env)
    (h : c.token.isSome = true) : (authenticate c env).state.token.isSome = true := by
  simp only [authenticate]
  cases hk : c.installKey with
  | none =>
    cases hr : (registerClient c env).res with
    | error e =>
      show (registerClient c env).state.token.isSome = true
      rw [registerClient_token]
      exact h
    | ok u =>
      exact authSignin_token _ env _ (by rw [registerClient_token]; exact h)
  | some k => exact authSignin_token c env [] h

theorem refreshToken_token (c : ClientState) (env : Env)
    (h : c.token.isSome = true) : (refreshToken c env).state.token.isSome = true := by
  simp only [refreshToken]
  repeat' split
  all_goals first
    | exact authenticate_token c env h
    | simp [h]

theorem ensureValidToken_token (c : ClientState) (env : Env)
    (h : c.token.isSome = true) : (ensureValidToken c env).state.token.isSome = true := by
  simp only [ensureValidToken]
  repeat' split
  all_goals first
    | exact authenticate_token c env h
    | exact refreshToken_token c env h
    | exact h

theorem doAuthReq_token (env : Env) :
    ∀ (script : List ApiResult) (c : ClientState) (b : Bool),
      c.token.isSome = true →
      (doAuthenticatedRequestWithRetry c env script b).state.token.isSome = true := by
  intro script
  induction script with
  | nil =>
    intro c b h
    simp only [doAuthenticatedRequestWithRetry]
    cases he : (ensureValidToken c env).res <;> exact ensureValidToken_token c env h
  | cons hd rest ih =>
    intro c b h
    cases hd with
    | transportFail =>
      simp only [doAuthenticatedRequestWithRetry]
      cases he : (ensureValidToken c env).res <;> exact ensureValidToken_token c env h
    | resp status =>
      simp only [doAuthenticatedRequestWithRetry]
      cases he : (ensureValidToken c env).res with
      | error e => exact ensureValidToken_token c env h
      | ok u =>
        by_cases hc : status = 401 ∧ b = true
        · rw [if_pos hc]
          cases ha : (authenticate (ensureValidToken c env).state env).res with
          | error e =>
            exact authenticate_token _ env (ensureValidToken_token c env h)
          | ok v =>
            exact ih _ false (authenticate_token _ env (ensureValidToken_token c env h))
        · rw [if_neg hc]
          exact ensureValidToken_token c env h

theorem registerClient_no_api (c : ClientState) (env : Env) :
    NetCall.apiCall ∉ (registerClient c env).calls := by
  unfold registerClient
  repeat' split
  all_goals simp

theorem authSignin_no_api (c : ClientState) (env : Env) (pre : List NetCall)
    (h : NetCall.apiCall ∉ pre) : NetCall.apiCall ∉ (authSignin c env pre).calls := by
  unfold authSignin
  repeat' split
  all_goals simp_all

theorem authenticate_no_api (c : ClientState) (env : Env) :
    NetCall.apiCall ∉ (authenticate c env).calls := by
  simp only [authenticate]
  cases hk : c.installKey with
  | none =>
    cases hr : (registerClient c env).res with
    | error e => exact registerClient_no_api c env
    | ok u => exact authSignin_no_api _ env _ (registerClient_no_api c env)
  | some k => exact authSignin_no_api c env [] (by simp)

theorem refreshToken_no_api (c : ClientState) (env : Env) :
    NetCall.apiCall ∉ (refreshToken c env).calls := by
  simp only [refreshToken]
  repeat' split
  all_goals first
    | exact authenticate_no_api c env
    | simp [authenticate_no_api c env]

theorem ensureValidToken_no_api (c : ClientState) (env : Env) :
    NetCall.apiCall ∉ (ensureValidToken c env).calls := by
  simp only [ensureValidToken]
  repeat' split
  all_goals first
    | exact authenticate_no_api c env
    | exact refreshToken_no_api c env
    | simp

theorem authSignin_ok_token (c : ClientState) (env : Env) (pre : List NetCall)
    (h : (authSignin c env pre).res = .ok ()) :
    ∃ t, (authSignin c env pre).state.token = some t ∧ t.expiresAt = env.now + 3600 := by
  revert h
  unfold authSignin
  repeat' split
  all_goals intro h
  all_goals simp_all

theorem authenticate_ok_token (c : ClientState) (env : Env)
    (h : (authenticate c env).res = .ok ()) :
    ∃ t, (authenticate c env).state.token = some t ∧ t.expiresAt = env.now + 3600 := by
  revert h
  simp only [authenticate]
  cases hk : c.installKey with
  | none =>
    cases hr : (registerClient c env).res with
    | error e =>
      intro h
      exact absurd h (by simp)
    | ok u => exact authSignin_ok_token _ env _
  | some k => exact authSignin_ok_token c env []

theorem doAuthReq_fresh (c : ClientState) (env : Env) (t : TokenInfo)
    (hc : c.token = some t) (hfresh : ¬ env.now + 300 > t.expiresAt)
    (status : Nat) (rest : List ApiResult) :
    doAuthenticatedRequestWithRetry c env (.resp status :: rest) false
      = ⟨.ok status, c, [.apiCall], rest⟩ := by
  simp only [doAuthenticatedRequestWithRetry, ensureValidToken, hc]
  rw [if_neg hfresh]
  simp

/-- C2: when the token-freshness check succeeds and the first response
is a 401 with retry allowed, the executor re-authenticates (here
successfully) and retries exactly once with retry disallowed: the
outcome is the second scripted response — success for a 200, a surfaced
401 (Unauthorized) for a second 401 — after exactly two underlying HTTP
calls, with the rest of the script untouched. -/
theorem retry_once_on_401 (c : ClientState) (env : Env) (s : Nat) (rest : List ApiResult)
    (hens : (ensureValidToken c env).res = .ok ())
    (hauth : (authenticate (ensureValidToken c env).state env).res = .ok ()) :
    (doAuthenticatedRequestWithRetry c env (.resp 401 :: .resp s :: rest) true).res = .ok s ∧
    (doAuthenticatedRequestWithRetry c env (.resp 401 :: .resp s :: rest) true).calls.count
      .apiCall = 2 ∧
    (doAuthenticatedRequestWithRetry c env (.resp 401 :: .resp s :: rest) true).rest = rest := by
  obtain ⟨t, ht, hexp⟩ := authenticate_ok_token _ env hauth
  have hretry := doAuthReq_fresh (authenticate (ensureValidToken c env).state env).state env t ht
    (by omega) s rest
  rw [doAuthenticatedRequestWithRetry.eq_def]
  simp only [hens]
  rw [if_pos (by simp)]
  simp only [hauth]
  rw [hretry]
  refine ⟨rfl, ?_, rfl⟩
  simp [List.count_append, List.count_eq_zero.mpr (ensureValidToken_no_api c env),
    List.count_eq_zero.mpr (authenticate_no_api _ env)]

theorem retry_once_on_401_witness :
    (doAuthenticatedRequestWithRetry
        ⟨some ⟨"id"⟩, some ⟨"at", "rt", 100000⟩, "SN", "M", "Continuous", none, none, false, none, none⟩
        ⟨0, true, ⟨"id"⟩, true, .resp 200 true ⟨"a", "r"⟩, true, .resp 200 true ⟨"a", "r"⟩,
          true, .resp 200 true ⟨"a", "r"⟩, true⟩
        [.resp 401, .resp 401] true).res = .ok 401 ∧
    (doAuthenticatedRequestWithRetry
        ⟨some ⟨"id"⟩, some ⟨"at", "rt", 100000⟩, "SN", "M", "Continuous", none, none, false, none, none⟩
        ⟨0, true, ⟨"id"⟩, true, .resp 200 true ⟨"a", "r"⟩, true, .resp 200 true ⟨"a", "r"⟩,
          true, .resp 200 true ⟨"a", "r"⟩, true⟩
        [.resp 401, .resp 401] true).calls.count .apiCall = 2 ∧
    (doAuthenticatedRequestWithRetry
        ⟨some ⟨"id"⟩, some ⟨"at", "rt", 100000⟩, "SN", "M", "Continuous", none, none, false, none, none⟩
        ⟨0, true, ⟨"id"⟩, true, .resp 200 true ⟨"a", "r"⟩, true, .resp 200 true ⟨"a", "r"⟩,
          true, .resp 200 true ⟨"a", "r"⟩, true⟩
        [.resp 401, .resp 401] true).rest = [] :=
  retry_once_on_401 _ _ 401 [] (by decide) (by decide)

/-- C5: a mutation that fails — at the token check, by transport
failure, or with a non-success HTTP status — leaves the cached mode and
dose fields exactly as they were and fires no status-change
notification; the optimistic update and the single notification happen
only after a success status. -/
theorem mutation_failure_keeps_snapshot (c : ClientState) (env : Env) (script : List ApiResult)
    (mode doseId : String) (weight : ℚ) :
    (∀ e, (SetMode c env script mode).res = .error e →
      (SetMode c env script mode).state.currentMode = c.currentMode ∧
      (SetMode c env script mode).state.dose1 = c.dose1 ∧
      (SetMode c env script mode).state.dose2 = c.dose2 ∧
      (SetMode c env script mode).notifyCount = 0) ∧
    (∀ e, (SetDose c env script doseId weight).res = .error e →
      (SetDose c env script doseId weight).state.currentMode = c.currentMode ∧
      (SetDose c env script doseId weight).state.dose1 = c.dose1 ∧
      (SetDose c env script doseId weight).state.dose2 = c.dose2 ∧
      (SetDose c env script doseId weight).notifyCount = 0) ∧
    ((SetMode c env script mode).res = .ok () →
      (SetMode c env script mode).state.currentMode = mode ∧
      (SetMode c env script mode).notifyCount = 1) ∧
    ((SetDose c env script doseId weight).res = .ok () →
      (SetDose c env script doseId weight).notifyCount = 1) := by
  have hsnap := doAuthReq_snap env script c true
  refine ⟨?_, ?_, ?_, ?_⟩
  · intro e he
    rcases hres : (doAuthenticatedRequestWithRetry c env script true).res with e' | status
    · simp only [SetMode, doAuthenticatedRequest, hres] at he ⊢
      refine ⟨hsnap.1, hsnap.2.1, hsnap.2.2.1, ?_⟩
      trivial
    · by_cases hst : status ≠ 200 ∧ status ≠ 202
      · simp only [SetMode, doAuthenticatedRequest, hres, if_pos hst] at he ⊢
        refine ⟨hsnap.1, hsnap.2.1, hsnap.2.2.1, ?_⟩
        trivial
      · simp only [SetMode, doAuthenticatedRequest, hres, if_neg hst] at he
        exact absurd he (by simp)
  · intro e he
    rcases hres : (doAuthenticatedRequestWithRetry c env script true).res with e' | status
    · simp only [SetDose, doAuthenticatedRequest, hres] at he ⊢
      refine ⟨hsnap.1, hsnap.2.1, hsnap.2.2.1, ?_⟩
      trivial
    · by_cases hst : status ≠ 200 ∧ status ≠ 202
      · simp only [SetDose, doAuthenticatedRequest, hres, if_pos hst] at he ⊢
        refine ⟨hsnap.1, hsnap.2.1, hsnap.2.2.1, ?_⟩
        trivial
      · simp only [SetDose, doAuthenticatedRequest, hres, if_neg hst] at he
        exact absurd he (by simp)
  · intro hok
    rcases hres : (doAuthenticatedRequestWithRetry c env script true).res with e' | status
    · simp only [SetMode, doAuthenticatedRequest, hres] at hok
      exact absurd hok (by simp)
    · by_cases hst : status ≠ 200 ∧ status ≠ 202
      · simp only [SetMode, doAuthenticatedRequest, hres, if_pos hst] at hok
        exact absurd hok (by simp)
      · simp [SetMode, doAuthenticatedRequest, hres, if_neg hst]
  · intro hok
    rcases hres : (doAuthenticatedRequestWithRetry c env script true).res with e' | status
    · simp only [SetDose, doAuthenticatedRequest, hres] at hok
      exact absurd hok (by simp)
    · by_cases hst : status ≠ 200 ∧ status ≠ 202
      · simp only [SetDose, doAuthenticatedRequest, hres, if_pos hst] at hok
        exact absurd hok (by simp)
      · simp only [SetDose, doAuthenticatedRequest, hres, if_neg hst]

theorem mutation_failure_keeps_snapshot_witness :
    ((SetMode
        ⟨some ⟨"id"⟩, some ⟨"at", "rt", 100000⟩, "SN", "M", "Continuous", some ⟨18⟩, none, false, none, none⟩
        ⟨0, true, ⟨"id"⟩, true, .resp 200 true ⟨"a", "r"⟩, true, .resp 200 true ⟨"a", "r"⟩,
          true, .resp 200 true ⟨"a", "r"⟩, true⟩
        [.transportFail] "Dose1").state.currentMode = "Continuous" ∧
      (SetMode
        ⟨some ⟨"id"⟩, some ⟨"at", "rt", 100000⟩, "SN", "M", "Continuous", some ⟨18⟩, none, false, none, none⟩
        ⟨0, true, ⟨"id"⟩, true, .resp 200 true ⟨"a", "r"⟩, true, .resp 200 true ⟨"a", "r"⟩,
          true, .resp 200 true ⟨"a", "r"⟩, true⟩
        [.transportFail] "Dose1").state.dose1 = some ⟨18⟩ ∧
      (SetMode
        ⟨some ⟨"id"⟩, some ⟨"at", "rt", 100000⟩, "SN", "M", "Continuous", some ⟨18⟩, none, false, none, none⟩
        ⟨0, true, ⟨"id"⟩, true, .resp 200 true ⟨"a", "r"⟩, true, .resp 200 true ⟨"a", "r"⟩,
          true, .resp 200 true ⟨"a", "r"⟩, true⟩
        [.transportFail] "Dose1").state.dose2 = none ∧
      (SetMode
        ⟨some ⟨"id"⟩, some ⟨"at", "rt", 100000⟩, "SN", "M", "Continuous", some ⟨18⟩, none, false, none, none⟩
        ⟨0, true, ⟨"id"⟩, true, .resp 200 true ⟨"a", "r"⟩, true, .resp 200 true ⟨"a", "r"⟩,
          true, .resp 200 true ⟨"a", "r"⟩, true⟩
        [.transportFail] "Dose1").notifyCount = 0) ∧
    ((SetMode
        ⟨some ⟨"id"⟩, some ⟨"at", "rt", 100000⟩, "SN", "M", "Continuous", some ⟨18⟩, none, false, none, none⟩
        ⟨0, true, ⟨"id"⟩, true, .resp 200 true ⟨"a", "r"⟩, true, .resp 200 true ⟨"a", "r"⟩,
          true, .resp 200 true ⟨"a", "r"⟩, true⟩
        [.resp 200] "Dose1").state.currentMode = "Dose1" ∧
      (SetMode
        ⟨some ⟨"id"⟩, some ⟨"at", "rt", 100000⟩, "SN", "M", "Continuous", some ⟨18⟩, none, false, none, none⟩
        ⟨0, true, ⟨"id"⟩, true, .resp 200 true ⟨"a", "r"⟩, true, .resp 200 true ⟨"a", "r"⟩,
          true, .resp 200 true ⟨"a", "r"⟩, true⟩
        [.resp 200] "Dose1").notifyCount = 1) :=
  ⟨(mutation_failure_keeps_snapshot _ _ [.transportFail] "Dose1" "Dose1" 18).1 .transport (by decide),
   (mutation_failure_keeps_snapshot _ _ [.resp 200] "Dose1" "Dose1" 18).2.2.1 (by decide)⟩

/-- C7: refreshToken never fails directly on a rejected refresh — with
no usable refresh token or no installation key it delegates to
authenticate, and a non-success refresh status falls back to
authenticate; any error the caller sees is either the corresponding
authenticate error or a request-construction, signing-header, transport
or body-decoding failure. -/
theorem refreshToken_fallback (c : ClientState) (env : Env) :
    (∀ e, (refreshToken c env).res = .error e →
      (authenticate c env).res = .error e ∨
        e = .request ∨ e = .headers ∨ e = .transport ∨ e = .decode) ∧
    (∀ t status dec body, c.token = some t → t.refreshToken ≠ "" →
      c.installKey.isSome = true → env.refreshReqOk = true → env.headersOk = true →
      env.refreshResult = .resp status dec body → status ≠ 200 →
      (refreshToken c env).res = (authenticate c env).res) := by
  constructor
  · intro e he
    simp only [refreshToken] at he
    split at he
    · exact Or.inl he
    · split at he
      · exact Or.inl he
      · split at he
        · simp at he
          subst he
          simp
        · split at he
          · simp at he
            subst he
            simp
          · split at he
            · simp at he
              subst he
              simp
            · split at he
              · exact Or.inl he
              · split at he
                · simp at he
                  subst he
                  simp
                · simp at he
  · intro t status dec body ht hrt hk hreq hhdr hres hstatus
    rcases hko : c.installKey with _ | k
    · rw [hko] at hk
      simp at hk
    · simp only [refreshToken, ht, hko, hreq, hhdr, hres]
      rw [if_neg (by simpa using hrt)]
      rw [if_pos hstatus]
      simp

theorem refreshToken_fallback_witness :
    ((authenticate
        ⟨some ⟨"id"⟩, some ⟨"at", "rt", 100000⟩, "SN", "M", "Continuous", none, none, false, none, none⟩
        ⟨0, true, ⟨"id"⟩, true, .resp 200 true ⟨"a", "r"⟩, true, .resp 500 true ⟨"a", "r"⟩,
          true, .transportFail, true⟩).res = .error CErr.transport ∨
      CErr.transport = .request ∨ CErr.transport = .headers ∨
      CErr.transport = .transport ∨ CErr.transport = .decode) ∧
    (refreshToken
        ⟨some ⟨"id"⟩, some ⟨"at", "rt", 100000⟩, "SN", "M", "Continuous", none, none, false, none, none⟩
        ⟨0, true, ⟨"id"⟩, true, .resp 200 true ⟨"a", "r"⟩, true, .resp 200 true ⟨"a", "r"⟩,
          true, .resp 500 true ⟨"a", "r"⟩, true⟩).res
      = (authenticate
        ⟨some ⟨"id"⟩, some ⟨"at", "rt", 100000⟩, "SN", "M", "Continuous", none, none, false, none, none⟩
        ⟨0, true, ⟨"id"⟩, true, .resp 200 true ⟨"a", "r"⟩, true, .resp 200 true ⟨"a", "r"⟩,
          true, .resp 500 true ⟨"a", "r"⟩, true⟩).res :=
  ⟨(refreshToken_fallback _ _).1 CErr.transport (by decide),
   (refreshToken_fallback _ _).2 ⟨"at", "rt", 100000⟩ 500 true ⟨"a", "r"⟩ rfl
     (by decide) rfl rfl rfl rfl (by decide)⟩

theorem SetMode_token (c : ClientState) (env : Env) (script : List ApiResult) (mode : String)
    (h : c.token.isSome = true) : (SetMode c env script mode).state.token.isSome = true := by
  have hd := doAuthReq_token env script c true h
  rcases hres : (doAuthenticatedRequestWithRetry c env script true).res with e | status
  · simp only [SetMode, doAuthenticatedRequest, hres]
    exact hd
  · by_cases hst : status ≠ 200 ∧ status ≠ 202
    · simp only [SetMode, doAuthenticatedRequest, hres, if_pos hst]
      exact hd
    · simp only [SetMode, doAuthenticatedRequest, hres, if_neg hst]
      exact hd

theorem SetDose_token (c : ClientState) (env : Env) (script : List ApiResult)
    (doseId : String) (weight : ℚ)
    (h : c.token.isSome = true) : (SetDose c env script doseId weight).state.token.isSome = true := by
  have hd := doAuthReq_token env script c true h
  rcases hres : (doAuthenticatedRequestWithRetry c env script true).res with e | status
  · simp only [SetDose, doAuthenticatedRequest, hres]
    exact hd
  · by_cases hst : status ≠ 200 ∧ status ≠ 202
    · simp only [SetDose, doAuthenticatedRequest, hres, if_pos hst]
      exact hd
    · simp only [SetDose, doAuthenticatedRequest, hres, if_neg hst]
      split_ifs <;> exact hd

theorem fetchCurrentMode_token (c : ClientState) (env : Env) (script : List ApiResult)
    (body : JVal) (nowMilli : ℚ) (h : c.token.isSome = true) :
    (fetchCurrentMode c env script body nowMilli).state.token.isSome = true := by
  have hd := doAuthReq_token env script c true h
  rcases hres : (doAuthenticatedRequestWithRetry c env script true).res with e | status
  · simp only [fetchCurrentMode, doAuthenticatedRequest, hres]
    exact hd
  · by_cases hst : status ≠ 200
    · simp only [fetchCurrentMode, doAuthenticatedRequest, hres, if_pos hst]
      exact hd
    · simp only [fetchCurrentMode, doAuthenticatedRequest, hres, if_neg hst]
      exact hd

/-- C10: the Connected field GetStatus reports is exactly the presence
of a session token, and no modelled operation ever clears a present
token, so once authentication has succeeded every later GetStatus keeps
reporting Connected regardless of machine or network reachability. -/
theorem getStatus_connected_iff_token (c : ClientState) (env : Env) (script : List ApiResult)
    (mode doseId : String) (weight : ℚ) (body : JVal) (nowMilli : ℚ) (b : Bool) :
    ((GetStatus c).connected = c.token.isSome) ∧
    (c.token.isSome = true →
      (registerClient c env).state.token.isSome = true ∧
      (authenticate c env).state.token.isSome = true ∧
      (refreshToken c env).state.token.isSome = true ∧
      (ensureValidToken c env).state.token.isSome = true ∧
      (doAuthenticatedRequestWithRetry c env script b).state.token.isSome = true ∧
      (SetMode c env script mode).state.token.isSome = true ∧
      (SetDose c env script doseId weight).state.token.isSome = true ∧
      (fetchCurrentMode c env script body nowMilli).state.token.isSome = true) := by
  refine ⟨rfl, fun h => ⟨?_, authenticate_token c env h, refreshToken_token c env h,
    ensureValidToken_token c env h, doAuthReq_token env script c b h,
    SetMode_token c env script mode h, SetDose_token c env script doseId weight h,
    fetchCurrentMode_token c env script body nowMilli h⟩⟩
  rw [registerClient_token]
  exact h

theorem getStatus_connected_iff_token_witness :
    ((GetStatus
        ⟨some ⟨"id"⟩, some ⟨"at", "rt", 100000⟩, "SN", "M", "Continuous", none, none, false, none, none⟩).connected
      = true) ∧
    (fetchCurrentMode
        ⟨some ⟨"id"⟩, some ⟨"at", "rt", 100000⟩, "SN", "M", "Continuous", none, none, false, none, none⟩
        ⟨0, true, ⟨"id"⟩, true, .resp 200 true ⟨"a", "r"⟩, true, .resp 200 true ⟨"a", "r"⟩,
          true, .resp 200 true ⟨"a", "r"⟩, true⟩
        [.transportFail] JVal.null 0).state.token.isSome = true :=
  ⟨(getStatus_connected_iff_token
      ⟨some ⟨"id"⟩, some ⟨"at", "rt", 100000⟩, "SN", "M", "Continuous", none, none, false, none, none⟩
      ⟨0, true, ⟨"id"⟩, true, .resp 200 true ⟨"a", "r"⟩, true, .resp 200 true ⟨"a", "r"⟩,
        true, .resp 200 true ⟨"a", "r"⟩, true⟩
      [.transportFail] "Continuous" "Dose1" 18 JVal.null 0 true).1,
   ((getStatus_connected_iff_token
      ⟨some ⟨"id"⟩, some ⟨"at", "rt", 100000⟩, "SN", "M", "Continuous", none, none, false, none, none⟩
      ⟨0, true, ⟨"id"⟩, true, .resp 200 true ⟨"a", "r"⟩, true, .resp 200 true ⟨"a", "r"⟩,
        true, .resp 200 true ⟨"a", "r"⟩, true⟩
      [.transportFail] "Continuous" "Dose1" 18 JVal.null 0 true).2 rfl).2.2.2.2.2.2.2⟩

theorem applyMachineStatusWidget_dose1 (w : List (String × JVal)) (r : DashboardData) :
    (applyMachineStatusWidget w r).dose1 = r.dose1 := by
  unfold applyMachineStatusWidget
  repeat' split
  all_goals simp

theorem applyMachineStatusWidget_dose2 (w : List (String × JVal)) (r : DashboardData) :
    (applyMachineStatusWidget w r).dose2 = r.dose2 := by
  unfold applyMachineStatusWidget
  repeat' split
  all_goals simp

theorem applyBoilerWidget_dose1 (nowMilli : ℚ) (w : List (String × JVal)) (r : DashboardData) :
    (applyBoilerWidget nowMilli w r).dose1 = r.dose1 := by
  unfold applyBoilerWidget
  repeat' split
  all_goals simp

theorem applyBoilerWidget_dose2 (nowMilli : ℚ) (w : List (String × JVal)) (r : DashboardData) :
    (applyBoilerWidget nowMilli w r).dose2 = r.dose2 := by
  unfold applyBoilerWidget
  repeat' split
  all_goals simp

theorem applyScaleWidget_dose1 (w : List (String × JVal)) (r : DashboardData) :
    (applyScaleWidget w r).dose1 = r.dose1 := by
  unfold applyScaleWidget
  repeat' split
  all_goals simp

theorem applyScaleWidget_dose2 (w : List (String × JVal)) (r : DashboardData) :
    (applyScaleWidget w r).dose2 = r.dose2 := by
  unfold applyScaleWidget
  repeat' split
  all_goals simp

theorem applyBrewWidget_doses (w : List (String × JVal)) (r : DashboardData) :
    ((applyBrewWidget w r).dose1 = r.dose1 ∨
      ∃ q, 0 < q ∧ (applyBrewWidget w r).dose1 = some ⟨q⟩) ∧
    ((applyBrewWidget w r).dose2 = r.dose2 ∨
      ∃ q, 0 < q ∧ (applyBrewWidget w r).dose2 = some ⟨q⟩) := by
  unfold applyBrewWidget
  repeat' split
  all_goals constructor
  all_goals first
    | exact Or.inl rfl
    | exact Or.inr ⟨_, by assumption, rfl⟩

theorem applyWidget_doses (nowMilli : ℚ) (w : JVal) (r : DashboardData) :
    ((applyWidget nowMilli r w).dose1 = r.dose1 ∨
      ∃ q, 0 < q ∧ (applyWidget nowMilli r w).dose1 = some ⟨q⟩) ∧
    ((applyWidget nowMilli r w).dose2 = r.dose2 ∨
      ∃ q, 0 < q ∧ (applyWidget nowMilli r w).dose2 = some ⟨q⟩) := by
  cases w with
  | obj widget =>
    simp only [applyWidget]
    repeat' split
    all_goals constructor
    all_goals try simp only [applyScaleWidget_dose1, applyScaleWidget_dose2,
      applyBoilerWidget_dose1, applyBoilerWidget_dose2]
    all_goals first
      | exact Or.inl trivial
      | exact Or.inl rfl
      | exact Or.inl (applyMachineStatusWidget_dose1 widget r)
      | exact Or.inl (applyMachineStatusWidget_dose2 widget r)
      | (rcases (applyBrewWidget_doses widget (applyMachineStatusWidget widget r)).1
            with h | ⟨q, hq, h⟩
         · exact Or.inl (h.trans (applyMachineStatusWidget_dose1 widget r))
         · exact Or.inr ⟨q, hq, h⟩)
      | (rcases (applyBrewWidget_doses widget r).1 with h | ⟨q, hq, h⟩
         · exact Or.inl h
         · exact Or.inr ⟨q, hq, h⟩)
      | (rcases (applyBrewWidget_doses widget (applyMachineStatusWidget widget r)).2
            with h | ⟨q, hq, h⟩
         · exact Or.inl (h.trans (applyMachineStatusWidget_dose2 widget r))
         · exact Or.inr ⟨q, hq, h⟩)
      | (rcases (applyBrewWidget_doses widget r).2 with h | ⟨q, hq, h⟩
         · exact Or.inl h
         · exact Or.inr ⟨q, hq, h⟩)
  | null => exact ⟨Or.inl rfl, Or.inl rfl⟩
  | bool b => exact ⟨Or.inl rfl, Or.inl rfl⟩
  | num q => exact ⟨Or.inl rfl, Or.inl rfl⟩
  | str s => exact ⟨Or.inl rfl, Or.inl rfl⟩
  | arr xs => exact ⟨Or.inl rfl, Or.inl rfl⟩

theorem foldl_doses_inv (nowMilli : ℚ) : ∀ (ws : List JVal) (r : DashboardData),
    (∀ d, r.dose1 = some d → 0 < d.weight) → (∀ d, r.dose2 = some d → 0 < d.weight) →
    (∀ d, (ws.foldl (applyWidget nowMilli) r).dose1 = some d → 0 < d.weight) ∧
    (∀ d, (ws.foldl (applyWidget nowMilli) r).dose2 = some d → 0 < d.weight)
  | [], _, h1, h2 => ⟨h1, h2⟩
  | w :: ws, r, h1, h2 => by
    simp only [List.foldl_cons]
    apply foldl_doses_inv
    · intro d hd
      rcases (applyWidget_doses nowMilli w r).1 with h | ⟨q, hq, h⟩
      · exact h1 d (h ▸ hd)
      · rw [h] at hd
        cases hd
        exact hq
    · intro d hd
      rcases (applyWidget_doses nowMilli w r).2 with h | ⟨q, hq, h⟩
      · exact h2 d (h ▸ hd)
      · rw [h] at hd
        cases hd
        exact hq

/-- C8: extractDataFromDashboard never stores a non-positive dose
weight — a dose whose numeric value is exactly zero is skipped, leaving
the snapshot field absent rather than set to a zero weight — and this
holds for both Dose1 and Dose2 on every input payload: a brew widget
whose dose entry decodes to 0 leaves the corresponding dose field
exactly as it was. -/
theorem zero_dose_left_absent (body : JVal) (nowMilli : ℚ) :
    (∀ d, (extractDataFromDashboard body nowMilli).dose1 = some d → 0 < d.weight) ∧
    (∀ d, (extractDataFromDashboard body nowMilli).dose2 = some d → 0 < d.weight) ∧
    (∀ (widget output doses d1 : List (String × JVal)) (r : DashboardData),
      jlookup widget "output" = some (.obj output) →
      jlookup output "doses" = some (.obj doses) →
      jlookup doses "Dose1" = some (.obj d1) →
      jlookup d1 "dose" = some (.num 0) →
      (applyBrewWidget widget r).dose1 = r.dose1) ∧
    (∀ (widget output doses d2 : List (String × JVal)) (r : DashboardData),
      jlookup widget "output" = some (.obj output) →
      jlookup output "doses" = some (.obj doses) →
      jlookup doses "Dose2" = some (.obj d2) →
      jlookup d2 "dose" = some (.num 0) →
      (applyBrewWidget widget r).dose2 = r.dose2) := by
  refine ⟨?_, ?_, ?_, ?_⟩
  · intro d hd
    revert hd
    cases body with
    | obj data =>
      simp only [extractDataFromDashboard]
      repeat' split
      all_goals intro hd
      all_goals first
        | (refine (foldl_doses_inv nowMilli _ _ ?_ ?_).1 d hd <;> (intro d' hd'; simp at hd'))
        | exact absurd hd (by simp)
    | null => intro hd; simp [extractDataFromDashboard] at hd
    | bool b => intro hd; simp [extractDataFromDashboard] at hd
    | num q => intro hd; simp [extractDataFromDashboard] at hd
    | str s => intro hd; simp [extractDataFromDashboard] at hd
    | arr xs => intro hd; simp [extractDataFromDashboard] at hd
  · intro d hd
    revert hd
    cases body with
    | obj data =>
      simp only [extractDataFromDashboard]
      repeat' split
      all_goals intro hd
      all_goals first
        | (refine (foldl_doses_inv nowMilli _ _ ?_ ?_).2 d hd <;> (intro d' hd'; simp at hd'))
        | exact absurd hd (by simp)
    | null => intro hd; simp [extractDataFromDashboard] at hd
    | bool b => intro hd; simp [extractDataFromDashboard] at hd
    | num q => intro hd; simp [extractDataFromDashboard] at hd
    | str s => intro hd; simp [extractDataFromDashboard] at hd
    | arr xs => intro hd; simp [extractDataFromDashboard] at hd
  · intro widget output doses d1 r hout hdoses hd1 hdose
    simp only [applyBrewWidget, hout, hdoses, hd1, hdose]
    repeat' split
    all_goals first
      | (exfalso; linarith)
      | simp
  · intro widget output doses d2 r hout hdoses hd2 hdose
    simp only [applyBrewWidget, hout, hdoses, hd2, hdose]
    repeat' split
    all_goals first
      | (exfalso; linarith)
      | simp

theorem zero_dose_left_absent_witness : (0 : ℚ) < 18 :=
  (zero_dose_left_absent
      (JVal.obj [("widgets", JVal.arr [JVal.obj [("code", JVal.str "CMBrewByWeightDoses"),
        ("output", JVal.obj [("doses", JVal.obj [("Dose1",
          JVal.obj [("dose", JVal.num 18)])])])]])]) 0).1
    ⟨18⟩ (by decide)

theorem doseChanged_iff (old new : Option DoseInfo) :
    doseChanged old new = true ↔ DoseSlotChange old new := by
  cases new with
  | none => simp [doseChanged, DoseSlotChange]
  | some nd =>
    cases old with
    | none => simp [doseChanged, DoseSlotChange]
    | some od => simp [doseChanged, DoseSlotChange]

theorem boilerChanged_iff (old new : Option BoilerInfo) :
    boilerChanged old new = true ↔ BoilerChange old new := by
  cases new with
  | none => simp [boilerChanged, BoilerChange]
  | some nb =>
    cases old with
    | none => simp [boilerChanged, BoilerChange]
    | some ob => simp [boilerChanged, BoilerChange]

theorem scaleChanged_iff (old new : Option ScaleInfo) :
    scaleChanged old new = true ↔ ScaleChange old new := by
  cases new with
  | none => simp [scaleChanged, ScaleChange]
  | some ns =>
    cases old with
    | none => simp [scaleChanged, ScaleChange]
    | some os => simp [scaleChanged, ScaleChange]

theorem doseChanged_self (o : Option DoseInfo) : doseChanged o o = false := by
  cases o <;> simp [doseChanged]

theorem boilerChanged_self (o : Option BoilerInfo) : boilerChanged o o = false := by
  cases o <;> simp [boilerChanged]

theorem scaleChanged_self (o : Option ScaleInfo) : scaleChanged o o = false := by
  cases o <;> simp [scaleChanged]

theorem dashboardChanged_congr {a b : ClientState} (h : snapEq a b) (data : DashboardData) :
    dashboardChanged a data = dashboardChanged b data := by
  unfold dashboardChanged
  rw [h.1, h.2.1, h.2.2.1, h.2.2.2.1, h.2.2.2.2.1, h.2.2.2.2.2]

theorem dashboardChanged_self (st : ClientState) (data : DashboardData)
    (h1 : st.currentMode = data.mode) (h2 : st.dose1 = data.dose1)
    (h3 : st.dose2 = data.dose2) (h4 : st.machineOn = data.machineOn)
    (h5 : st.boiler = data.boiler) (h6 : st.scale = data.scale) :
    dashboardChanged st data = false := by
  simp [dashboardChanged, h1, h2, h3, h4, h5, h6, doseChanged_self, boilerChanged_self,
    scaleChanged_self]

theorem dashboardChanged_iff (old : ClientState) (data : DashboardData) :
    dashboardChanged old data = true ↔ SnapshotChange old data := by
  simp only [dashboardChanged, SnapshotChange, Bool.or_eq_true, bne_iff_ne,
    doseChanged_iff, boilerChanged_iff, scaleChanged_iff]
  tauto

theorem fetchCurrentMode_ok_decomp (c : ClientState) (env : Env) (script : List ApiResult)
    (body : JVal) (nowMilli : ℚ)
    (hok : (fetchCurrentMode c env script body nowMilli).res = .ok ()) :
    (fetchCurrentMode c env script body nowMilli).state.currentMode
        = (extractDataFromDashboard body nowMilli).mode ∧
    (fetchCurrentMode c env script body nowMilli).state.dose1
        = (extractDataFromDashboard body nowMilli).dose1 ∧
    (fetchCurrentMode c env script body nowMilli).state.dose2
        = (extractDataFromDashboard body nowMilli).dose2 ∧
    (fetchCurrentMode c env script body nowMilli).state.machineOn
        = (extractDataFromDashboard body nowMilli).machineOn ∧
    (fetchCurrentMode c env script body nowMilli).state.boiler
        = (extractDataFromDashboard body nowMilli).boiler ∧
    (fetchCurrentMode c env script body nowMilli).state.scale
        = (extractDataFromDashboard body nowMilli).scale ∧
    (fetchCurrentMode c env script body nowMilli).notifyCount
      = (if dashboardChanged (doAuthenticatedRequestWithRetry c env script true).state
            (extractDataFromDashboard body nowMilli) then 1 else 0) := by
  rcases hres : (doAuthenticatedRequestWithRetry c env script true).res with e | status
  · simp only [fetchCurrentMode, doAuthenticatedRequest, hres] at hok
    exact absurd hok (by simp)
  · by_cases hst : status ≠ 200
    · simp only [fetchCurrentMode, doAuthenticatedRequest, hres, if_pos hst] at hok
      exact absurd hok (by simp)
    · simp only [fetchCurrentMode, doAuthenticatedRequest, hres, if_neg hst]
      refine ⟨?_, ?_, ?_, ?_, ?_, ?_, ?_⟩ <;> trivial

/-- C4 (amended): after a successful poll the callback fires exactly
when the mode or power state differ from the previous snapshot, or a
dose, boiler or scale value present in the new data is absent in the
previous snapshot or differs field-wise; a value present only in the old
snapshot does not by itself fire.  Polling the same payload twice in a
row yields zero notifications, and a payload changing only the scale
battery level yields exactly one. -/
theorem fetch_notify_policy (c : ClientState) (env : Env) (script : List ApiResult)
    (body : JVal) (nowMilli : ℚ)
    (hok : (fetchCurrentMode c env script body nowMilli).res = .ok ()) :
    ((fetchCurrentMode c env script body nowMilli).notifyCount = 1 ↔
      SnapshotChange c (extractDataFromDashboard body nowMilli)) ∧
    (∀ script2,
      (fetchCurrentMode (fetchCurrentMode c env script body nowMilli).state env script2 body
          nowMilli).res = .ok () →
      (fetchCurrentMode (fetchCurrentMode c env script body nowMilli).state env script2 body
          nowMilli).notifyCount = 0) ∧
    (∀ body2 script2 s1 s2,
      (extractDataFromDashboard body nowMilli).scale = some s1 →
      extractDataFromDashboard body2 nowMilli
        = { extractDataFromDashboard body nowMilli with scale := some s2 } →
      s2.connected = s1.connected → s2.batteryLevel ≠ s1.batteryLevel →
      (fetchCurrentMode (fetchCurrentMode c env script body nowMilli).state env script2 body2
          nowMilli).res = .ok () →
      (fetchCurrentMode (fetchCurrentMode c env script body nowMilli).state env script2 body2
          nowMilli).notifyCount = 1) := by
  have hdec1 := fetchCurrentMode_ok_decomp c env script body nowMilli hok
  refine ⟨?_, ?_, ?_⟩
  · rw [hdec1.2.2.2.2.2.2, dashboardChanged_congr (doAuthReq_snap env script c true)]
    by_cases hch : dashboardChanged c (extractDataFromDashboard body nowMilli) = true
    · simp only [hch, if_true]
      simp only [true_iff]
      exact (dashboardChanged_iff c _).mp hch
    · simp only [Bool.not_eq_true] at hch
      simp only [hch]
      simp only [Bool.false_eq_true, if_false]
      constructor
      · intro h
        exact absurd h (by norm_num)
      · intro hs
        exact absurd ((dashboardChanged_iff c _).mpr hs) (by simp [hch])
  · intro script2 hok2
    have hdec2 := fetchCurrentMode_ok_decomp _ env script2 body nowMilli hok2
    rw [hdec2.2.2.2.2.2.2,
      dashboardChanged_congr (doAuthReq_snap env script2 _ true),
      dashboardChanged_self _ _ hdec1.1 hdec1.2.1 hdec1.2.2.1 hdec1.2.2.2.1
        hdec1.2.2.2.2.1 hdec1.2.2.2.2.2.1]
    simp
  · intro body2 script2 s1 s2 hs1 heq hconn hbat hok2
    have hdec2 := fetchCurrentMode_ok_decomp _ env script2 body2 nowMilli hok2
    rw [hdec2.2.2.2.2.2.2,
      dashboardChanged_congr (doAuthReq_snap env script2 _ true)]
    have hscale : scaleChanged (fetchCurrentMode c env script body nowMilli).state.scale
        (extractDataFromDashboard body2 nowMilli).scale = true := by
      rw [hdec1.2.2.2.2.2.1, hs1, heq]
      simp only [scaleChanged]
      simp [hconn, bne_iff_ne]
      exact Ne.symm hbat
    have hchanged : dashboardChanged (fetchCurrentMode c env script body nowMilli).state
        (extractDataFromDashboard body2 nowMilli) = true := by
      simp [dashboardChanged, hscale]
    rw [hchanged]
    simp

theorem fetch_notify_policy_witness :
    ((fetchCurrentMode
        ⟨some ⟨"id"⟩, some ⟨"at", "rt", 100000⟩, "SN", "M", "Continuous", none, none, false, none, none⟩
        ⟨0, true, ⟨"id"⟩, true, .resp 200 true ⟨"a", "r"⟩, true, .resp 200 true ⟨"a", "r"⟩,
          true, .resp 200 true ⟨"a", "r"⟩, true⟩
        [.resp 200] (JVal.obj [("widgets", JVal.arr [])]) 0).notifyCount = 1 ↔
      SnapshotChange
        ⟨some ⟨"id"⟩, some ⟨"at", "rt", 100000⟩, "SN", "M", "Continuous", none, none, false, none, none⟩
        (extractDataFromDashboard (JVal.obj [("widgets", JVal.arr [])]) 0)) ∧
    (fetchCurrentMode
        (fetchCurrentMode
          ⟨some ⟨"id"⟩, some ⟨"at", "rt", 100000⟩, "SN", "M", "Continuous", none, none, false, none, none⟩
          ⟨0, true, ⟨"id"⟩, true, .resp 200 true ⟨"a", "r"⟩, true, .resp 200 true ⟨"a", "r"⟩,
            true, .resp 200 true ⟨"a", "r"⟩, true⟩
          [.resp 200] (JVal.obj [("widgets", JVal.arr [])]) 0).state
        ⟨0, true, ⟨"id"⟩, true, .resp 200 true ⟨"a", "r"⟩, true, .resp 200 true ⟨"a", "r"⟩,
          true, .resp 200 true ⟨"a", "r"⟩, true⟩
        [.resp 200] (JVal.obj [("widgets", JVal.arr [])]) 0).notifyCount = 0 :=
  ⟨(fetch_notify_policy _ _ [.resp 200] _ 0 (by decide)).1,
   (fetch_notify_policy _ _ [.resp 200] _ 0 (by decide)).2.1 [.resp 200] (by decide)⟩

/-- C4 (counterexample): with a cached snapshot holding a present dose1
and a successful poll whose payload carries no doses, the dose1 field
transitions from present to absent yet no notification fires, refuting
the claim that a present-to-absent transition counts as a change. -/
theorem fetch_absent_transition_counterexample :
    ((fetchCurrentMode
        ⟨some ⟨"id"⟩, some ⟨"at", "rt", 100000⟩, "SN", "M", "Continuous", some ⟨18⟩, none, false, none, none⟩
        ⟨0, true, ⟨"id"⟩, true, .resp 200 true ⟨"a", "r"⟩, true, .resp 200 true ⟨"a", "r"⟩,
          true, .resp 200 true ⟨"a", "r"⟩, true⟩
        [.resp 200] (JVal.obj [("widgets", JVal.arr [])]) 0).res = .ok ()) ∧
    (fetchCurrentMode
        ⟨some ⟨"id"⟩, some ⟨"at", "rt", 100000⟩, "SN", "M", "Continuous", some ⟨18⟩, none, false, none, none⟩
        ⟨0, true, ⟨"id"⟩, true, .resp 200 true ⟨"a", "r"⟩, true, .resp 200 true ⟨"a", "r"⟩,
          true, .resp 200 true ⟨"a", "r"⟩, true⟩
        [.resp 200] (JVal.obj [("widgets", JVal.arr [])]) 0).state.dose1 = none ∧
    (fetchCurrentMode
        ⟨some ⟨"id"⟩, some ⟨"at", "rt", 100000⟩, "SN", "M", "Continuous", some ⟨18⟩, none, false, none, none⟩
        ⟨0, true, ⟨"id"⟩, true, .resp 200 true ⟨"a", "r"⟩, true, .resp 200 true ⟨"a", "r"⟩,
          true, .resp 200 true ⟨"a", "r"⟩, true⟩
        [.resp 200] (JVal.obj [("widgets", JVal.arr [])]) 0).notifyCount = 0 := by
  decide

end LaMarzocco
